import Mathlib

/-!
Shallow embedding of the ModMail ticket engine from `src/index.js`
(discord.js bot + express dashboard, MongoDB store).

Store records mirror the mongoose schemas; platform calls (guild/channel/
member fetches, sends, deletes) are modelled through an `Env` oracle that
fixes the outcome of each fallible external interaction, so every handler
becomes a pure function `Env → Store → input → outcome × Store`.
`findOne` on a collection is modelled as `List.find?` (first match in
insertion order), `save` on a new document as an append, and `save` on a
loaded document as an in-place replacement keyed by id.
-/

namespace Modmail

/-- Note subdocument embedded in a ticket (the `notes` array). -/
structure Note where
  user_id : String
  content : String
  timestamp : Nat
deriving Repr, DecidableEq

/-- Ticket record (mongoose `ticketSchema`): `_id` is modelled as `tid : Nat`,
status keeps the schema's string enum `"open"` / `"closed"`. -/
structure Ticket where
  tid : Nat
  user_id : String
  guild_id : Option String
  channel_id : String
  status : String
  created_at : Nat
  closed_at : Option Nat := none
  closed_by : Option String := none
  claimed_by : Option String := none
  claimed_at : Option Nat := none
  priority : String := "normal"
  category : Option String := none
  notes : List Note := []
deriving Repr, DecidableEq

/-- Message record (mongoose `messageSchema`). -/
structure Message where
  ticket_id : Nat
  user_id : String
  content : String
  attachments : List String
  timestamp : Nat
  is_staff : Bool
deriving Repr, DecidableEq

/-- Per-destination configuration (mongoose `guildSchema`). -/
structure GuildSetting where
  guild_id : String
  name : Option String := none
  modmail_category_id : Option String := none
  staff_role_id : Option String := none
  log_channel_id : Option String := none
  is_default : Bool := false
deriving Repr, DecidableEq

/-- Blocked-user record (mongoose `blockedUserSchema`). -/
structure BlockedUser where
  user_id : String
  blocked_by : Option String := none
  reason : Option String := none
deriving Repr, DecidableEq

/-- The MongoDB store: the four collections plus a fresh-id counter standing
for ObjectId generation. -/
structure Store where
  tickets : List Ticket
  messages : List Message
  guildSettings : List GuildSetting
  blocked : List BlockedUser
  nextId : Nat
deriving Repr, DecidableEq

/-- A button interaction event delivered to the selection collector:
arrival time (ms since the window opened), acting user, and the button's
custom id. -/
structure SelEvent where
  time : Nat
  userId : String
  customId : String
deriving Repr, DecidableEq

/-- The Discord user object fields the engine reads. -/
structure UserInfo where
  uid : String
  username : String
deriving Repr, DecidableEq

/-- An inbound direct message: text content and attachment URLs. -/
structure DMsg where
  content : String
  attachments : List String
deriving Repr, DecidableEq

/-- Oracle fixing the outcome of every fallible platform interaction, plus
process environment variables. `freshChannelId` gives the id Discord assigns
to the n-th created channel (indexed by the store's fresh-id counter, which
also counts ticket creations). -/
structure Env where
  botGuilds : List String
  guildInCache : String → Bool
  memberOf : String → String → Bool
  hasRole : String → String → String → Bool
  adminPerm : String → String → Bool
  channelExists : String → Bool
  createChannelOk : Bool
  freshChannelId : Nat → String
  introSendOk : Bool
  ticketSaveOk : Bool
  logChannelInCache : String → Bool
  logSendOk : Bool
  relaySendOk : Bool
  deleteChannelOk : String → Bool
  envGuildId : Option String
  envStaffRoleId : Option String
  envLogChannelId : Option String
  now : Nat
  selectionEvents : List SelEvent

/-- `Ticket.findOne with user_id and status open` — first open ticket of a
user in collection order (used by `handleDM`'s sticky-routing lookup and by
the chat-side Close/Claim button handlers). -/
def findOpenTicket (store : Store) (uid : String) : Option Ticket :=
  store.tickets.find? (fun t => t.user_id == uid && t.status == "open")

/-- `Ticket.findOne with user_id, status open and guild_id` — the
find-or-create lookup of `handleDM` once a destination is known. -/
def findOpenTicketInGuild (store : Store) (uid gid : String) : Option Ticket :=
  store.tickets.find? (fun t =>
    t.user_id == uid && t.status == "open" && t.guild_id == some gid)

/-- `ticket.save()` on a loaded document: replace the record with the same
id. -/
def saveTicket (store : Store) (t : Ticket) : Store :=
  { store with tickets := store.tickets.map (fun x => if x.tid == t.tid then t else x) }

/-- The destination-resolution chain at the top of `createTicket`: explicit
argument, else the default-flagged GuildSetting, else any GuildSetting
(`findOne()`), each only if the guild is in the client cache, else fall
back to `process.env.GUILD_ID` (also only if cached); `none` is the
`Guild not found` hard failure. -/
def resolveGuild (env : Env) (store : Store)
    (guildConfig : Option GuildSetting) : Option String :=
  let cfg : Option GuildSetting :=
    match guildConfig with
    | some c => some c
    | none =>
      match store.guildSettings.find? (fun g => g.is_default) with
      | some c => some c
      | none => store.guildSettings.find? (fun _ => true)
  let guildFromCfg : Option String :=
    match cfg with
    | some c => if env.guildInCache c.guild_id then some c.guild_id else none
    | none => none
  match guildFromCfg with
  | some g => some g
  | none =>
    match env.envGuildId with
    | some g => if env.guildInCache g then some g else none
    | none => none

/-- The ticket row persisted by `createTicket`: status open, bound to the
freshly created channel. -/
def mkTicket (env : Env) (store : Store) (user : UserInfo) (gid : String) : Ticket :=
  { tid := store.nextId, user_id := user.uid, guild_id := some gid,
    channel_id := env.freshChannelId store.nextId, status := "open",
    created_at := env.now }

/-- Translation of `createTicket(user, guildConfig)` (`index.js` 1275-1447).
The destination is resolved by `resolveGuild`; its absence is the thrown
`Guild not found` giving `null`. Channel creation, the intro send and the
ticket save are fallible and abort with `null` before anything is
persisted; the log-channel mirror send (run when `process.env.LOG_CHANNEL_ID`
is set and that channel is in the guild cache) is fallible AFTER the ticket
row was saved and its failure also yields `null`. Category and staff-role
resolution are non-fatal and affect only the created channel's placement
and permission overwrites. -/
def createTicket (env : Env) (store : Store) (user : UserInfo)
    (guildConfig : Option GuildSetting) : Option Ticket × Store :=
  match resolveGuild env store guildConfig with
  | none => (none, store)
  | some gid =>
    if !env.createChannelOk then (none, store)
    else if !env.introSendOk then (none, store)
    else if !env.ticketSaveOk then (none, store)
    else
      let t : Ticket := mkTicket env store user gid
      let store1 : Store :=
        { store with tickets := store.tickets ++ [t], nextId := store.nextId + 1 }
      match env.envLogChannelId with
      | some lc =>
        if env.logChannelInCache lc then
          if env.logSendOk then (some t, store1) else (none, store1)
        else (some t, store1)
      | none => (some t, store1)

/-- `interaction.customId.replace` of the `guild_select_` marker by the
empty string, as used to recover the guild id from a pressed button (every
reachable custom id is the marker followed by the guild id). -/
def stripGuildSelect (s : String) : String :=
  let marker := "guild_select_".data
  if s.data.take marker.length = marker then String.mk (s.data.drop marker.length) else s

/-- The message-component collector of `handleDM` (60-second window): events
are processed in arrival order; an event at or after the 60000 ms bound is
never delivered (the window has ended). A press by another user is answered
ephemerally and changes nothing; a press by the author resolves to the
matching configured guild and stops the collector, so later events are
no-ops. No resolution within the window yields `none` (timeout). -/
def collectorRun (authorId : String) (available : List GuildSetting) :
    List SelEvent → Option GuildSetting
  | [] => none
  | e :: rest =>
    if 60000 ≤ e.time then none
    else if e.userId != authorId then collectorRun authorId available rest
    else
      match available.find? (fun g => g.guild_id == stripGuildSelect e.customId) with
      | some g => some g
      | none => collectorRun authorId available rest

/-- The candidate-destination set computed by `handleDM` (`index.js`
967-997): configured guilds (GuildSetting rows) restricted to the guilds
returned by `client.guilds.fetch()`, i.e. the guilds the BOT is in. The
filter reads only the bot's guild list; the sending user is not consulted. -/
def availableGuildsFor (env : Env) (store : Store) : List GuildSetting :=
  store.guildSettings.filter (fun g => env.botGuilds.contains g.guild_id)

/-- Outcome of one `handleDM` run, naming the reply sent (or relay done). -/
inductive DMOutcome
  | blockedReply
  | configErrorNoGuilds
  | accessDeniedNoServer
  | timeoutNoTicket
  | configErrorNoConfig
  | createFailed
  | channelError
  | relayError
  | relayed (ticketId : Nat) (created : Bool)
deriving Repr, DecidableEq

/-- Relay tail of `handleDM`: forward the embed into the staff channel and
persist the Message row (`is_staff := false`). A failing channel send throws
out of `handleDM` before the Message is saved. -/
def relayDM (env : Env) (store : Store) (t : Ticket) (author : UserInfo)
    (m : DMsg) (created : Bool) : DMOutcome × Store :=
  if !env.relaySendOk then (.relayError, store)
  else
    let msg : Message :=
      { ticket_id := t.tid, user_id := author.uid, content := m.content,
        attachments := m.attachments, timestamp := env.now, is_staff := false }
    (.relayed t.tid created, { store with messages := store.messages ++ [msg] })

/-- Translation of `handleDM(message)` (`index.js` 949-1205): blocklist
gate, bot-guild fetch, candidate filter, destination resolution (sticky
ticket, else interactive selection when several candidates), find-or-create
of the open ticket for the (user, guild) pair, channel resolution with the
recovery path `createTicket(message.author)` — called WITHOUT the resolved
guild config — when the bound channel no longer exists, then relay. -/
def handleDM (env : Env) (store : Store) (author : UserInfo) (m : DMsg) :
    DMOutcome × Store :=
  if (store.blocked.find? (fun b => b.user_id == author.uid)).isSome then
    (.blockedReply, store)
  else if env.botGuilds.isEmpty then
    (.configErrorNoGuilds, store)
  else
    let available := availableGuildsFor env store
    if available.isEmpty then (.accessDeniedNoServer, store)
    else
      let chosen : Option (Option GuildSetting) :=
        if available.length > 1 then
          match findOpenTicket store author.uid with
          | some ex =>
            some (available.find? (fun g => some g.guild_id == ex.guild_id))
          | none =>
            match collectorRun author.uid available env.selectionEvents with
            | some g => some (some g)
            | none => none
        else
          some available.head?
      match chosen with
      | none => (.timeoutNoTicket, store)
      | some oCfg =>
        match oCfg with
        | none => (.configErrorNoConfig, store)
        | some cfg =>
          let found := findOpenTicketInGuild store author.uid cfg.guild_id
          match found with
          | some t =>
            if env.channelExists t.channel_id then
              relayDM env store t author m false
            else
              -- recovery path: the bound channel is gone; `createTicket` is
              -- invoked with no config, then the old ticket's channel_id is
              -- pointed at the replacement channel and saved
              match createTicket env store author none with
              | (some nt, s2) =>
                let t2 := { t with channel_id := nt.channel_id }
                let s3 := saveTicket s2 t2
                if env.channelExists nt.channel_id then
                  relayDM env s3 t2 author m false
                else (.channelError, s3)
              | (none, s2) => (.channelError, s2)
          | none =>
            match createTicket env store author (some cfg) with
            | (none, s1) => (.createFailed, s1)
            | (some t, s1) =>
              if env.channelExists t.channel_id then
                relayDM env s1 t author m true
              else
                match createTicket env s1 author none with
                | (some nt, s2) =>
                  let t2 := { t with channel_id := nt.channel_id }
                  let s3 := saveTicket s2 t2
                  if env.channelExists nt.channel_id then
                    relayDM env s3 t2 author m true
                  else (.channelError, s3)
                | (none, s2) => (.channelError, s2)

/-- The closed version of a ticket: status, closed_at and closed_by as
written by both close paths. -/
def closedVersion (t : Ticket) (now : Nat) (staffId : String) : Ticket :=
  { t with
    status := "closed"
    closed_at := some now
    closed_by := some staffId }

/-- The claimed version of a ticket: claimed_by and claimed_at as written
by both claim paths. -/
def claimedVersion (t : Ticket) (now : Nat) (staffId : String) : Ticket :=
  { t with
    claimed_by := some staffId
    claimed_at := some now }

/-- The channel a button interaction arrived in: its id and its topic
string (the bound user id set at creation time). -/
structure ChannelInfo where
  chid : String
  topic : Option String
deriving Repr, DecidableEq

/-- Result of the chat-side Close button handler. -/
inductive ChatCloseRes
  | notFoundOrClosed
  | closedOk (ticketId : Nat)
deriving Repr, DecidableEq

/-- Translation of `handleCloseTicket(interaction)` (`index.js` 1467-1523):
the ticket is located by `Ticket.findOne` on the invoking channel's TOPIC
(user id) and status open — the channel id itself is not part of the query.
User notification is try/caught (best-effort, before the mutation); the
channel deletion runs 5 seconds later inside its own try/catch, so its
failure never undoes the close. -/
def handleCloseTicket (env : Env) (store : Store) (ch : ChannelInfo)
    (staffId : String) : ChatCloseRes × Store :=
  match ch.topic with
  | none => (.notFoundOrClosed, store)
  | some uid =>
    match findOpenTicket store uid with
    | none => (.notFoundOrClosed, store)
    | some t =>
      (.closedOk t.tid, saveTicket store (closedVersion t env.now staffId))

/-- Result of the chat-side Claim button handler. -/
inductive ChatClaimRes
  | notFound
  | alreadyClaimed
  | claimedOk (ticketId : Nat)
deriving Repr, DecidableEq

/-- Translation of `handleClaimTicket(interaction)` (`index.js` 1525-1551):
same topic-based open-ticket lookup as the Close button; any ticket with
`claimed_by` already set is rejected outright (also for the same staff id);
otherwise claimed_by/claimed_at are set and saved. -/
def handleClaimTicket (env : Env) (store : Store) (ch : ChannelInfo)
    (staffId : String) : ChatClaimRes × Store :=
  match ch.topic with
  | none => (.notFound, store)
  | some uid =>
    match findOpenTicket store uid with
    | none => (.notFound, store)
    | some t =>
      if t.claimed_by.isSome then (.alreadyClaimed, store)
      else (.claimedOk t.tid, saveTicket store (claimedVersion t env.now staffId))

/-- Outcome of a dashboard API request. -/
inductive ApiRes
  | guildNotFound
  | notMember
  | accessDenied
  | notFoundTicket
  | alreadyClosedErr
  | emptyNote
  | serverError
  | success
deriving Repr, DecidableEq

/-- Translation of the `isStaff` express middleware (`index.js` 195-223):
the caller is checked ONLY against the single guild named by
`process.env.GUILD_ID` — member there, and holding `process.env.STAFF_ROLE_ID`
or the Administrator permission. `none` means the gate passes. The target
ticket plays no part in this decision. -/
def staffGateRes (env : Env) (caller : String) : Option ApiRes :=
  match env.envGuildId with
  | none => some .guildNotFound
  | some gid =>
    if !env.guildInCache gid then some .guildNotFound
    else if !env.memberOf gid caller then some .notMember
    else if (match env.envStaffRoleId with
             | some r => env.hasRole gid caller r
             | none => false) || env.adminPerm gid caller then none
    else some .accessDenied

/-- Translation of `POST /api/ticket/:id/close` (`index.js` 484-524): staff
gate, ticket lookup by id, conflict on an already-closed ticket; the channel
FETCH failure is caught (`.catch(() => null)`) but the channel DELETE is
awaited uncaught, so a failing delete aborts the request with a 500 before
the ticket is mutated. The user notification afterwards is try/caught. -/
def apiClose (env : Env) (store : Store) (caller : String) (ticketId : Nat) :
    ApiRes × Store :=
  match staffGateRes env caller with
  | some r => (r, store)
  | none =>
    match store.tickets.find? (fun t => t.tid == ticketId) with
    | none => (.notFoundTicket, store)
    | some t =>
      if t.status == "closed" then (.alreadyClosedErr, store)
      else if env.channelExists t.channel_id && !env.deleteChannelOk t.channel_id then
        (.serverError, store)
      else
        (.success, saveTicket store (closedVersion t env.now caller))

/-- Translation of `POST /api/ticket/:id/claim` (`index.js` 551-568): staff
gate, ticket lookup by id, then claimed_by/claimed_at are set to the caller
and saved UNCONDITIONALLY — there is no check of an existing claim. -/
def apiClaim (env : Env) (store : Store) (caller : String) (ticketId : Nat) :
    ApiRes × Store :=
  match staffGateRes env caller with
  | some r => (r, store)
  | none =>
    match store.tickets.find? (fun t => t.tid == ticketId) with
    | none => (.notFoundTicket, store)
    | some t =>
      (.success, saveTicket store (claimedVersion t env.now caller))

/-- Translation of `POST /api/ticket/:id/delete` (`index.js` 526-549):
staff gate, lookup, uncaught channel delete (a failing delete aborts with a
500 before anything is removed), then cascade-delete of the Message rows and
the ticket row. -/
def apiDelete (env : Env) (store : Store) (caller : String) (ticketId : Nat) :
    ApiRes × Store :=
  match staffGateRes env caller with
  | some r => (r, store)
  | none =>
    match store.tickets.find? (fun t => t.tid == ticketId) with
    | none => (.notFoundTicket, store)
    | some t =>
      if env.channelExists t.channel_id && !env.deleteChannelOk t.channel_id then
        (.serverError, store)
      else
        (.success,
         { store with
           messages := store.messages.filter (fun msg => msg.ticket_id != t.tid),
           tickets := store.tickets.filter (fun x => x.tid != t.tid) })

/-- Translation of `POST /api/ticket/:id/note` (`index.js` 570-596): staff
gate, rejection of empty or whitespace-only content, ticket lookup by id,
then the note is pushed onto the ticket's `notes` array and saved. -/
def apiNote (env : Env) (store : Store) (caller : String) (ticketId : Nat)
    (content : String) : ApiRes × Store :=
  match staffGateRes env caller with
  | some r => (r, store)
  | none =>
    if content.trim.isEmpty then (.emptyNote, store)
    else
      match store.tickets.find? (fun t => t.tid == ticketId) with
      | none => (.notFoundTicket, store)
      | some t =>
        let nt : Note := { user_id := caller, content := content, timestamp := env.now }
        let t2 := { t with notes := t.notes ++ [nt] }
        (.success, saveTicket store t2)

/-- Decidable check of the store invariant: at most one ticket with
status open per (user id, guild id) pair. -/
def openUniqueB (store : Store) : Bool :=
  store.tickets.all (fun t =>
    t.status != "open" ||
    (store.tickets.filter (fun s =>
      s.status == "open" && s.user_id == t.user_id && s.guild_id == t.guild_id)).length ≤ 1)

/-! Concrete fixtures used to run the model on explicit inputs. -/

/-- Baseline oracle: one guild `g1` in cache, every platform call succeeds,
except that channel `c1` no longer exists (deleted out-of-band). -/
def envBase : Env := {
  botGuilds := ["g1"]
  guildInCache := fun g => g == "g1"
  memberOf := fun _ _ => false
  hasRole := fun _ _ _ => false
  adminPerm := fun _ _ => false
  channelExists := fun c => c != "c1"
  createChannelOk := true
  freshChannelId := fun n => "ch" ++ toString n
  introSendOk := true
  ticketSaveOk := true
  logChannelInCache := fun _ => false
  logSendOk := true
  relaySendOk := true
  deleteChannelOk := fun _ => true
  envGuildId := none
  envStaffRoleId := none
  envLogChannelId := none
  now := 1000
  selectionEvents := []
}

/-- The single configured destination of the baseline scenario. -/
def gs1 : GuildSetting := { guild_id := "g1", is_default := true }

/-- An open ticket of user `u1` in `g1`, bound to the vanished channel `c1`. -/
def t1 : Ticket :=
  { tid := 1, user_id := "u1", guild_id := some "g1", channel_id := "c1",
    status := "open", created_at := 0 }

/-- Store holding exactly `t1` with `g1` configured. -/
def store1 : Store :=
  { tickets := [t1], messages := [], guildSettings := [gs1], blocked := [], nextId := 2 }

/-- The requesting user. -/
def alice : UserInfo := { uid := "u1", username := "alice" }

/-- A plain inbound direct message. -/
def dm1 : DMsg := { content := "hello", attachments := [] }

/-- Two-destination scenario: `ga` (not default) holds the open ticket,
`gb` is the default-flagged destination; the ticket's channel `cA` is gone. -/
def gsA : GuildSetting := { guild_id := "ga" }

/-- The default-flagged second destination. -/
def gsB : GuildSetting := { guild_id := "gb", is_default := true }

/-- Open ticket of `u1` in destination `ga`, bound to vanished channel `cA`. -/
def tA : Ticket :=
  { tid := 1, user_id := "u1", guild_id := some "ga", channel_id := "cA",
    status := "open", created_at := 0 }

/-- Oracle for the two-destination scenario. -/
def envC2 : Env := { envBase with
  botGuilds := ["ga", "gb"]
  guildInCache := fun g => g == "ga" || g == "gb"
  channelExists := fun c => c != "cA" }

/-- Store of the two-destination scenario. -/
def storeC2 : Store :=
  { tickets := [tA], messages := [], guildSettings := [gsA, gsB], blocked := [], nextId := 2 }

/-- Oracle for the membership scenario: all channels resolvable, and `u1`
is a member of no guild at all (`memberOf` is constantly false). -/
def envC3 : Env := { envBase with channelExists := fun _ => true }

/-- Store with `g1` configured and no tickets yet. -/
def storeC3 : Store :=
  { tickets := [], messages := [], guildSettings := [gs1], blocked := [], nextId := 1 }

/-- C1: the store starts satisfying the at-most-one-open-ticket invariant,
yet one `handleDM` run that takes the channel-recovery path leaves TWO open
tickets for the pair (u1, g1): the recovery calls `createTicket`, which
persists a second open ticket row in addition to re-pointing the original
ticket at the replacement channel, so the engine does NOT preserve the
invariant. -/
theorem C1_recovery_breaks_open_uniqueness :
    openUniqueB store1 = true ∧
    openUniqueB (handleDM envBase store1 alice dm1).2 = false := by
  exact ⟨rfl, rfl⟩

/-- C2: on the channel-recovery path the engine does persist the new channel
id on the same ticket record (id 1 keeps its identity and gets channel
`ch2`), but it additionally persists a SECOND open ticket record for the
user, and — because `createTicket` is called without the resolved config —
the replacement channel is created in the default destination `gb`, not in
the ticket's own destination `ga`. -/
theorem C2_recovery_wrong_destination_and_extra_ticket :
    tA.guild_id = some "ga" ∧
    (handleDM envC2 storeC2 alice dm1).2.tickets =
      [{ tA with channel_id := "ch2" },
       { tid := 2, user_id := "u1", guild_id := some "gb", channel_id := "ch2",
         status := "open", created_at := 1000 }] := by
  exact ⟨rfl, rfl⟩

/-- C3: the candidate-destination filter of `handleDM` never consults the
sending user's membership: `u1` is a member of no guild at all, yet the
configured bot-present guild `g1` stays in the candidate set, and the DM of
this non-member proceeds to create an open ticket in `g1` instead of being
denied. The real predicate is configured AND bot-present only. -/
theorem C3_membership_not_consulted :
    envC3.memberOf "g1" "u1" = false ∧
    availableGuildsFor envC3 storeC3 = [gs1] ∧
    (handleDM envC3 storeC3 alice dm1).1 = DMOutcome.relayed 1 true ∧
    ((handleDM envC3 storeC3 alice dm1).2.tickets.map Ticket.status) = ["open"] := by
  exact ⟨rfl, rfl, rfl, rfl⟩

/-- A valid selection press: the requesting user picks the `g1` button
5 seconds into the window. -/
def evA : SelEvent := { time := 5000, userId := "u1", customId := "guild_select_g1" }

/-- A press on the same button by a different user. -/
def evB : SelEvent := { time := 5000, userId := "u2", customId := "guild_select_g1" }

/-- Two-destination store with no ticket yet, so `handleDM` must present the
interactive selection. -/
def storeSel : Store := { storeC2 with tickets := [] }

/-- C4: the selection window resolves to exactly one outcome. (1) The first
press by the requesting user strictly before the 60000 ms bound resolves the
window to the pressed destination, whatever events follow (they are no-ops,
so it resolves exactly once). (2) A press by any other identity leaves the
collector state exactly as if the event had not happened. (3) If no valid
press happens strictly before the bound (every event is at/after the bound,
from another identity, or matches no candidate), the window stays
unresolved. (4) An unresolved window makes `handleDM` reply with the
timeout notice and stop: the store is returned unchanged, so no ticket is
created. -/
theorem C4_selection_window
    (e : SelEvent) (rest es : List SelEvent) (authorId : String)
    (avail : List GuildSetting) (g : GuildSetting)
    (env : Env) (store : Store) (author : UserInfo) (m : DMsg) :
    (e.time < 60000 → e.userId = authorId →
      avail.find? (fun x => x.guild_id == stripGuildSelect e.customId) = some g →
      collectorRun authorId avail (e :: rest) = some g) ∧
    (e.time < 60000 → e.userId ≠ authorId →
      collectorRun authorId avail (e :: rest) = collectorRun authorId avail rest) ∧
    ((∀ e2 ∈ es, 60000 ≤ e2.time ∨ e2.userId ≠ authorId ∨
        avail.find? (fun x => x.guild_id == stripGuildSelect e2.customId) = none) →
      collectorRun authorId avail es = none) ∧
    ((store.blocked.find? (fun b => b.user_id == author.uid)).isSome = false →
     env.botGuilds.isEmpty = false →
     (availableGuildsFor env store).isEmpty = false →
     1 < (availableGuildsFor env store).length →
     findOpenTicket store author.uid = none →
     collectorRun author.uid (availableGuildsFor env store) env.selectionEvents = none →
     handleDM env store author m = (DMOutcome.timeoutNoTicket, store)) := by
  refine ⟨?_, ?_, ?_, ?_⟩
  · intro h1 h2 h3
    unfold collectorRun
    rw [if_neg (Nat.not_le.mpr h1), h2]
    simp [h3]
  · intro h1 h2
    conv_lhs => rw [collectorRun]
    rw [if_neg (Nat.not_le.mpr h1), if_pos (bne_iff_ne.mpr h2)]
  · intro hall
    induction es with
    | nil => rfl
    | cons e2 tl ih =>
      have ihtl := ih (fun x hx => hall x (List.mem_cons_of_mem _ hx))
      rcases hall e2 (List.mem_cons_self _ _) with h | h | h
      · simp [collectorRun, h]
      · by_cases ht : 60000 ≤ e2.time
        · simp [collectorRun, ht]
        · simp [collectorRun, ht, h, ihtl]
      · by_cases ht : 60000 ≤ e2.time
        · simp [collectorRun, ht]
        · by_cases hu : e2.userId = authorId
          · simp [collectorRun, ht, hu, h, ihtl]
          · simp [collectorRun, ht, hu, ihtl]
  · intro h1 h2 h3 h4 h5 h6
    simp only [handleDM, h1, h2, h3, h4, h5, h6]
    simp

/-- Witness for C4 at concrete inputs: a valid press at 5 s resolves to
`gs1`; a stranger's press is a no-op; a window seeing only the stranger's
press stays unresolved; and with two candidate destinations, no prior
ticket, and no press at all, `handleDM` returns the timeout notice with the
store untouched. -/
theorem C4_selection_window_witness :
    collectorRun "u1" [gs1] [evA] = some gs1 ∧
    collectorRun "u1" [gs1] [evB] = collectorRun "u1" [gs1] [] ∧
    collectorRun "u1" [gs1] [evB] = none ∧
    handleDM envC2 storeSel alice dm1 = (DMOutcome.timeoutNoTicket, storeSel) := by
  have hA := C4_selection_window evA [] [evB] "u1" [gs1] gs1 envC2 storeSel alice dm1
  have hB := C4_selection_window evB [] [evB] "u1" [gs1] gs1 envC2 storeSel alice dm1
  exact ⟨hA.1 (by decide) rfl (by decide),
         hB.2.1 (by decide) (by decide),
         hA.2.2.1 (by decide),
         hA.2.2.2 rfl rfl rfl (by decide) rfl rfl⟩

/-- Oracle whose dashboard staff gate passes for every caller: the main
guild `main` (from `process.env.GUILD_ID`) is in cache and every caller is a
member with the Administrator permission there; all channels resolve. -/
def envStaff : Env := { envBase with
  envGuildId := some "main"
  guildInCache := fun g => g == "main"
  memberOf := fun g _ => g == "main"
  adminPerm := fun g _ => g == "main"
  channelExists := fun _ => true }

/-- The ticket channel of the dashboard scenarios. -/
def chX : ChannelInfo := { chid := "cX", topic := some "u1" }

/-- An open unclaimed ticket bound to channel `cX`. -/
def tOpenX : Ticket :=
  { tid := 1, user_id := "u1", guild_id := some "g1", channel_id := "cX",
    status := "open", created_at := 0 }

/-- Store holding just the open ticket `tOpenX`. -/
def storeOpenX : Store :=
  { tickets := [tOpenX], messages := [], guildSettings := [], blocked := [], nextId := 2 }

/-- The same ticket already claimed by `staffA`. -/
def tClaimed : Ticket := { tOpenX with claimed_by := some "staffA", claimed_at := some 5 }

/-- Store holding the ticket claimed by `staffA`. -/
def storeC5 : Store := { storeOpenX with tickets := [tClaimed] }

/-- The same ticket already closed by `staffA` at time 7. -/
def tClosedX : Ticket :=
  { tOpenX with status := "closed", closed_at := some 7, closed_by := some "staffA" }

/-- Store holding only the closed ticket. -/
def storeClosedX : Store := { storeOpenX with tickets := [tClosedX] }

/-- Oracle where every channel deletion fails (fetch still succeeds). -/
def envC6 : Env := { envStaff with deleteChannelOk := fun _ => false }

/-- C5 counterexample: on a ticket already claimed by `staffA`, the
dashboard claim endpoint invoked by the different staff id `staffB` is NOT
a no-op with a conflict signal — it answers success and overwrites
claimed_by, because the endpoint never consults the existing claim. -/
theorem C5_counterexample :
    tClaimed.claimed_by = some "staffA" ∧
    (apiClaim envStaff storeC5 "staffB" 1).1 = ApiRes.success ∧
    ((apiClaim envStaff storeC5 "staffB" 1).2.tickets.map Ticket.claimed_by) =
      [some "staffB"] := by
  exact ⟨rfl, rfl, rfl⟩

/-- C5 amended: the CHAT-side claim handler is the one with the conflict
no-op — any already-set claimed_by (same or different staff) is rejected
with the already-claimed signal and no mutation, and an unclaimed ticket
gets claimed_by/claimed_at set and saved. The DASHBOARD path performs no
conflict check at all: whenever the gate passes and the ticket exists it
unconditionally overwrites claimed_by/claimed_at with the caller and
persists, reporting success. -/
theorem C5_claim_semantics
    (env : Env) (store : Store) (ch : ChannelInfo)
    (staffId uid caller : String) (t : Ticket) (ticketId : Nat) :
    (ch.topic = some uid → findOpenTicket store uid = some t →
      t.claimed_by.isSome = true →
      handleClaimTicket env store ch staffId = (ChatClaimRes.alreadyClaimed, store)) ∧
    (ch.topic = some uid → findOpenTicket store uid = some t →
      t.claimed_by = none →
      handleClaimTicket env store ch staffId =
        (ChatClaimRes.claimedOk t.tid,
         saveTicket store (claimedVersion t env.now staffId))) ∧
    (staffGateRes env caller = none →
      store.tickets.find? (fun x => x.tid == ticketId) = some t →
      apiClaim env store caller ticketId =
        (ApiRes.success,
         saveTicket store (claimedVersion t env.now caller))) := by
  refine ⟨?_, ?_, ?_⟩
  · intro h1 h2 h3
    simp [handleClaimTicket, h1, h2, h3]
  · intro h1 h2 h3
    simp [handleClaimTicket, h1, h2, h3]
  · intro h1 h2
    simp [apiClaim, h1, h2]

/-- Witness for C5 at concrete inputs: the chat handler rejects `staffB` on
the ticket claimed by `staffA` without mutation, claims the unclaimed
ticket, and the dashboard endpoint overwrites the claim reporting success. -/
theorem C5_claim_semantics_witness :
    handleClaimTicket envStaff storeC5 chX "staffB" =
      (ChatClaimRes.alreadyClaimed, storeC5) ∧
    handleClaimTicket envStaff storeOpenX chX "staffB" =
      (ChatClaimRes.claimedOk 1,
       saveTicket storeOpenX (claimedVersion tOpenX 1000 "staffB")) ∧
    apiClaim envStaff storeC5 "staffB" 1 =
      (ApiRes.success,
       saveTicket storeC5 (claimedVersion tClaimed 1000 "staffB")) := by
  refine ⟨?_, ?_, ?_⟩
  · exact (C5_claim_semantics envStaff storeC5 chX "staffB" "u1" "staffB"
      tClaimed 1).1 rfl rfl rfl
  · exact (C5_claim_semantics envStaff storeOpenX chX "staffB" "u1" "staffB"
      tOpenX 1).2.1 rfl rfl rfl
  · exact (C5_claim_semantics envStaff storeC5 chX "staffB" "u1" "staffB"
      tClaimed 1).2.2 rfl rfl

/-- C6 counterexample: on the dashboard close path, when the ticket's
channel still exists but its deletion fails, the request aborts with the
500 error and the ticket does NOT transition to closed — the store is
returned unchanged, so channel deletion is not best-effort there. -/
theorem C6_counterexample :
    (apiClose envC6 storeOpenX "staffB" 1).1 = ApiRes.serverError ∧
    (apiClose envC6 storeOpenX "staffB" 1).2 = storeOpenX ∧
    ((apiClose envC6 storeOpenX "staffB" 1).2.tickets.map Ticket.status) = ["open"] := by
  exact ⟨rfl, rfl, rfl⟩

/-- C6 amended: the chat-side close defers channel deletion and a failing
deletion is non-fatal — the ticket still transitions to closed with
closed_at/closed_by set and persisted. On the dashboard path only the
ABSENCE of the channel is non-fatal (the fetch failure is caught and the
close proceeds); a failure of the delete call itself aborts the request and
the ticket stays open with the store unchanged. -/
theorem C6_close_channel_deletion
    (env : Env) (store : Store) (ch : ChannelInfo)
    (staffId uid caller : String) (t : Ticket) (ticketId : Nat) :
    (ch.topic = some uid → findOpenTicket store uid = some t →
      env.deleteChannelOk ch.chid = false →
      handleCloseTicket env store ch staffId =
        (ChatCloseRes.closedOk t.tid,
         saveTicket store (closedVersion t env.now staffId))) ∧
    (staffGateRes env caller = none →
      store.tickets.find? (fun x => x.tid == ticketId) = some t →
      (t.status == "closed") = false →
      env.channelExists t.channel_id = false →
      apiClose env store caller ticketId =
        (ApiRes.success,
         saveTicket store (closedVersion t env.now caller))) ∧
    (staffGateRes env caller = none →
      store.tickets.find? (fun x => x.tid == ticketId) = some t →
      (t.status == "closed") = false →
      env.channelExists t.channel_id = true →
      env.deleteChannelOk t.channel_id = false →
      apiClose env store caller ticketId = (ApiRes.serverError, store)) := by
  refine ⟨?_, ?_, ?_⟩
  · intro h1 h2 _
    simp [handleCloseTicket, h1, h2]
  · intro h1 h2 h3 h4
    simp [apiClose, h1, h2, h3, h4]
  · intro h1 h2 h3 h4 h5
    simp [apiClose, h1, h2, h3, h4, h5]

/-- Witness for C6 at concrete inputs: with every deletion failing, the
chat-side close still closes the ticket; the dashboard close succeeds when
the channel is already gone; and the dashboard close aborts unchanged when
the delete call fails. -/
theorem C6_close_channel_deletion_witness :
    handleCloseTicket envC6 storeOpenX chX "staffA" =
      (ChatCloseRes.closedOk 1,
       saveTicket storeOpenX (closedVersion tOpenX 1000 "staffA")) ∧
    apiClose { envC6 with channelExists := fun _ => false } storeOpenX "staffB" 1 =
      (ApiRes.success,
       saveTicket storeOpenX (closedVersion tOpenX 1000 "staffB")) ∧
    apiClose envC6 storeOpenX "staffB" 1 = (ApiRes.serverError, storeOpenX) := by
  refine ⟨?_, ?_, ?_⟩
  · exact (C6_close_channel_deletion envC6 storeOpenX chX "staffA" "u1" "staffB"
      tOpenX 1).1 rfl rfl rfl
  · exact (C6_close_channel_deletion { envC6 with channelExists := fun _ => false }
      storeOpenX chX "staffA" "u1" "staffB" tOpenX 1).2.1 rfl rfl rfl rfl
  · exact (C6_close_channel_deletion envC6 storeOpenX chX "staffA" "u1" "staffB"
      tOpenX 1).2.2 rfl rfl rfl rfl rfl

/-- Case analysis of the chat-side close: it either leaves the store alone
or saves the closed version of the ticket found by the topic query. -/
theorem handleCloseTicket_store_cases (env : Env) (store : Store)
    (ch : ChannelInfo) (staffId : String) :
    (handleCloseTicket env store ch staffId).2 = store ∨
    ∃ uid t0, ch.topic = some uid ∧ findOpenTicket store uid = some t0 ∧
      (handleCloseTicket env store ch staffId).2 =
        saveTicket store (closedVersion t0 env.now staffId) := by
  rcases htop : ch.topic with _ | uid
  · refine Or.inl ?_
    simp [handleCloseTicket, htop]
  · rcases hf : findOpenTicket store uid with _ | t0
    · refine Or.inl ?_
      simp [handleCloseTicket, htop, hf]
    · refine Or.inr ⟨uid, t0, rfl, hf, ?_⟩
      simp [handleCloseTicket, htop, hf]

/-- C7: closing an already-closed ticket mutates nothing. Dashboard path:
on a closed ticket id, the endpoint answers the already-closed conflict and
returns the store unchanged (so closed_at keeps its prior value). Chat
path: the close button's query only matches OPEN tickets, so when the user
has no open ticket it answers the not-found-or-closed conflict with the
store unchanged, and in every case a closed ticket record (with a unique
id) survives any chat-side close verbatim, its closed_at intact. -/
theorem C7_close_idempotent
    (env : Env) (store : Store) (ch : ChannelInfo)
    (staffId uid caller : String) (t : Ticket) (ticketId : Nat) :
    (staffGateRes env caller = none →
      store.tickets.find? (fun x => x.tid == ticketId) = some t →
      t.status = "closed" →
      apiClose env store caller ticketId = (ApiRes.alreadyClosedErr, store)) ∧
    (ch.topic = some uid → findOpenTicket store uid = none →
      handleCloseTicket env store ch staffId = (ChatCloseRes.notFoundOrClosed, store)) ∧
    (∀ x, x ∈ store.tickets → x.status = "closed" →
      (∀ y ∈ store.tickets, y.tid = x.tid → y = x) →
      x ∈ (handleCloseTicket env store ch staffId).2.tickets) := by
  refine ⟨?_, ?_, ?_⟩
  · intro h1 h2 h3
    simp [apiClose, h1, h2, h3]
  · intro h1 h2
    simp [handleCloseTicket, h1, h2]
  · intro x hx hxcl huniq
    rcases handleCloseTicket_store_cases env store ch staffId with hcase | ⟨u2, t0, _, hf, hcase⟩
    · rw [hcase]; exact hx
    · have ht0mem : t0 ∈ store.tickets := List.mem_of_find?_eq_some hf
      have ht0p := List.find?_some hf
      simp only [Bool.and_eq_true, beq_iff_eq] at ht0p
      have hne : (x.tid == t0.tid) = false := by
        simp only [beq_eq_false_iff_ne, ne_eq]
        intro he
        have heq : t0 = x := huniq t0 ht0mem he.symm
        rw [heq, hxcl] at ht0p
        exact absurd ht0p.2 (by decide)
      rw [hcase]
      simp only [saveTicket]
      have hmem := List.mem_map_of_mem
        (fun y => if y.tid == (closedVersion t0 env.now staffId).tid then
          closedVersion t0 env.now staffId else y) hx
      simpa [closedVersion, hne] using hmem

/-- Witness for C7 at concrete inputs: the dashboard close of the closed
ticket answers the conflict with the store (and closed_at 7) unchanged; the
chat close in the bound channel finds no open ticket and changes nothing;
and the closed record itself survives the chat-side press. -/
theorem C7_close_idempotent_witness :
    apiClose envStaff storeClosedX "staffB" 1 = (ApiRes.alreadyClosedErr, storeClosedX) ∧
    handleCloseTicket envStaff storeClosedX chX "staffB" =
      (ChatCloseRes.notFoundOrClosed, storeClosedX) ∧
    tClosedX ∈ (handleCloseTicket envStaff storeClosedX chX "staffB").2.tickets := by
  have h := C7_close_idempotent envStaff storeClosedX chX "staffB" "u1" "staffB" tClosedX 1
  refine ⟨h.1 rfl rfl rfl, h.2.1 rfl rfl, ?_⟩
  exact h.2.2 tClosedX (by decide) rfl (by decide)

/-- The store state right after `createTicket`'s save: the new open ticket
row appended, fresh-id counter advanced. -/
def storeWithTicket (env : Env) (store : Store) (user : UserInfo) (gid : String) : Store :=
  { store with
    tickets := store.tickets ++ [mkTicket env store user gid]
    nextId := store.nextId + 1 }

/-- Oracle for the log-mirror failure run: `g1` configured and cached, every
platform call succeeds except the send into the configured log channel. -/
def envC8 : Env := { envC3 with
  envLogChannelId := some "log"
  logChannelInCache := fun c => c == "log"
  logSendOk := false }

/-- C8 counterexample: a `createTicket` run in which only the log-channel
mirror send fails returns `null`, yet the open ticket row HAS been durably
saved by that invocation (the save precedes the mirror), contradicting
"null means the ticket was not created". -/
theorem C8_counterexample :
    (createTicket envC8 storeC3 alice none).1 = none ∧
    ((createTicket envC8 storeC3 alice none).2.tickets.map Ticket.status) = ["open"] ∧
    (createTicket envC8 storeC3 alice none).2.tickets ≠ storeC3.tickets := by
  refine ⟨rfl, rfl, by decide⟩

/-- C8 amended: `createTicket` returns the persisted open ticket on success
(the result row is exactly the one appended to the store), and `null` on
any failure; on a `null` return either nothing was persisted (failures up
to and including the save), or — exactly when the failure is the
log-channel mirror send, which runs after the save — the open ticket row
has already been durably saved despite the `null`. -/
theorem C8_createTicket_null_semantics
    (env : Env) (store : Store) (user : UserInfo) (cfg : Option GuildSetting) :
    (∀ t : Ticket, (createTicket env store user cfg).1 = some t →
      t.status = "open" ∧
      (createTicket env store user cfg).2.tickets = store.tickets ++ [t]) ∧
    ((createTicket env store user cfg).1 = none →
      (createTicket env store user cfg).2 = store ∨
      (env.logSendOk = false ∧ env.envLogChannelId.isSome = true ∧
        ∃ t : Ticket, t.status = "open" ∧
          (createTicket env store user cfg).2.tickets = store.tickets ++ [t])) := by
  rcases hg : resolveGuild env store cfg with _ | gid
  · have hct : createTicket env store user cfg = (none, store) := by
      unfold createTicket
      rw [hg]
    rw [hct]
    simp
  · cases hcc : env.createChannelOk
    · have hct : createTicket env store user cfg = (none, store) := by
        unfold createTicket
        rw [hg, hcc]
        rfl
      rw [hct]
      simp
    · cases hin : env.introSendOk
      · have hct : createTicket env store user cfg = (none, store) := by
          unfold createTicket
          rw [hg, hcc, hin]
          rfl
        rw [hct]
        simp
      · cases hsv : env.ticketSaveOk
        · have hct : createTicket env store user cfg = (none, store) := by
            unfold createTicket
            rw [hg, hcc, hin, hsv]
            rfl
          rw [hct]
          simp
        · rcases hlog : env.envLogChannelId with _ | lc
          · have hct : createTicket env store user cfg =
                (some (mkTicket env store user gid), storeWithTicket env store user gid) := by
              unfold createTicket
              rw [hg, hcc, hin, hsv, hlog]
              rfl
            rw [hct]
            simp [mkTicket, storeWithTicket]
          · cases hcach : env.logChannelInCache lc
            · have hct : createTicket env store user cfg =
                  (some (mkTicket env store user gid), storeWithTicket env store user gid) := by
                unfold createTicket
                rw [hg, hcc, hin, hsv, hlog]
                dsimp only
                rw [hcach]
                rfl
              rw [hct]
              simp [mkTicket, storeWithTicket]
            · cases hsend : env.logSendOk
              · have hct : createTicket env store user cfg =
                    (none, storeWithTicket env store user gid) := by
                  unfold createTicket
                  rw [hg, hcc, hin, hsv, hlog]
                  dsimp only
                  rw [hcach, hsend]
                  rfl
                rw [hct]
                refine ⟨fun t ht => (by simp at ht),
                        fun _ => Or.inr ⟨rfl, rfl, mkTicket env store user gid, rfl, rfl⟩⟩
              · have hct : createTicket env store user cfg =
                    (some (mkTicket env store user gid), storeWithTicket env store user gid) := by
                  unfold createTicket
                  rw [hg, hcc, hin, hsv, hlog]
                  dsimp only
                  rw [hcach, hsend]
                  rfl
                rw [hct]
                simp [mkTicket, storeWithTicket]

/-- Witness for C8 at the log-failure input: the null return came with the
open ticket row already saved (the right disjunct of the amended claim). -/
theorem C8_createTicket_null_semantics_witness :
    (createTicket envC8 storeC3 alice none).2 = storeC3 ∨
    (envC8.logSendOk = false ∧ envC8.envLogChannelId.isSome = true ∧
      ∃ t : Ticket, t.status = "open" ∧
        (createTicket envC8 storeC3 alice none).2.tickets = storeC3.tickets ++ [t]) := by
  exact (C8_createTicket_null_semantics envC8 storeC3 alice none).2 rfl

/-- A second open ticket of `u1`, in destination `gb`, bound to channel
`cB` — later in collection order than `tA`. -/
def tB : Ticket :=
  { tid := 2, user_id := "u1", guild_id := some "gb", channel_id := "cB",
    status := "open", created_at := 0 }

/-- Store where `u1` has open tickets in two destinations. -/
def storeC9 : Store :=
  { tickets := [tA, tB], messages := [], guildSettings := [gsA, gsB],
    blocked := [], nextId := 3 }

/-- The channel bound to `tB`, where the button is pressed. -/
def chB : ChannelInfo := { chid := "cB", topic := some "u1" }

/-- The channel bound to `tA`. -/
def chA : ChannelInfo := { chid := "cA", topic := some "u1" }

/-- C9: the chat-side Close and Claim buttons locate the ticket by the
invoking channel's TOPIC (user id) and status open only — the mutated
ticket is exactly the query's first match, for EVERY invoking channel id
(the handlers' outcome depends only on the topic). Concretely, with `u1`
holding open tickets in two destinations, pressing Close in `tB`'s channel
`cB` closes `tA` (bound to `cA`, a different channel) and leaves `tB`
open. -/
theorem C9_topic_lookup_ignores_channel
    (env : Env) (store : Store) (ch ch1 ch2 : ChannelInfo)
    (staffId uid : String) (t : Ticket) :
    (ch.topic = some uid → findOpenTicket store uid = some t →
      handleCloseTicket env store ch staffId =
        (ChatCloseRes.closedOk t.tid, saveTicket store (closedVersion t env.now staffId))) ∧
    (ch.topic = some uid → findOpenTicket store uid = some t → t.claimed_by = none →
      handleClaimTicket env store ch staffId =
        (ChatClaimRes.claimedOk t.tid, saveTicket store (claimedVersion t env.now staffId))) ∧
    (ch1.topic = ch2.topic →
      handleCloseTicket env store ch1 staffId = handleCloseTicket env store ch2 staffId ∧
      handleClaimTicket env store ch1 staffId = handleClaimTicket env store ch2 staffId) ∧
    (((handleCloseTicket envStaff storeC9 chB "staffA").2.tickets.map
        (fun x => (x.tid, x.status))) = [(1, "closed"), (2, "open")] ∧
      tA.channel_id ≠ chB.chid) := by
  refine ⟨?_, ?_, ?_, by decide⟩
  · intro h1 h2
    simp [handleCloseTicket, h1, h2]
  · intro h1 h2 h3
    simp [handleClaimTicket, h1, h2, h3]
  · intro h
    constructor
    · unfold handleCloseTicket
      rw [h]
    · unfold handleClaimTicket
      rw [h]

/-- Witness for C9 at concrete inputs: the press in `tB`'s channel closes
(or claims) `tA`, the first open ticket of `u1` in collection order, and
the two presses in different channels with the same topic agree. -/
theorem C9_topic_lookup_ignores_channel_witness :
    handleCloseTicket envStaff storeC9 chB "staffA" =
      (ChatCloseRes.closedOk 1, saveTicket storeC9 (closedVersion tA 1000 "staffA")) ∧
    handleClaimTicket envStaff storeC9 chB "staffA" =
      (ChatClaimRes.claimedOk 1, saveTicket storeC9 (claimedVersion tA 1000 "staffA")) ∧
    (handleCloseTicket envStaff storeC9 chB "staffA" =
       handleCloseTicket envStaff storeC9 chA "staffA" ∧
     handleClaimTicket envStaff storeC9 chB "staffA" =
       handleClaimTicket envStaff storeC9 chA "staffA") := by
  have h := C9_topic_lookup_ignores_channel envStaff storeC9 chB chB chA "staffA" "u1" tA
  exact ⟨h.1 rfl rfl, h.2.1 rfl rfl rfl, h.2.2.1 rfl⟩

/-- An open ticket whose destination is the guild `other`, not the main
guild of the dashboard gate. -/
def tOther : Ticket :=
  { tid := 1, user_id := "u9", guild_id := some "other", channel_id := "cX",
    status := "open", created_at := 0 }

/-- Store holding only the foreign-destination ticket. -/
def storeC10 : Store :=
  { tickets := [tOther], messages := [], guildSettings := [], blocked := [], nextId := 2 }

/-- Oracle for the denied caller: `bob` is an administrator of `other` (the
ticket's destination) but not a member of the main guild at all. -/
def envC10b : Env := { envStaff with
  memberOf := fun g u => g == "other" && u == "bob"
  adminPerm := fun g u => g == "other" && u == "bob" }

/-- C10: every mutating dashboard endpoint (close, delete, claim, note) is
gated by the one `isStaff` middleware, whose verdict is a function of the
caller and the main guild (`process.env.GUILD_ID` membership plus
STAFF_ROLE_ID or Administrator) alone: whenever the gate fails, all four
endpoints return that failure with the store untouched, for every store and
ticket id — the target ticket's guild_id is never consulted. Consequently
`alice`, staff only in the main guild (not a member of `other`), closes the
ticket living in `other`; while `bob`, an administrator of the ticket's own
destination but no member of the main guild, is denied. -/
theorem C10_main_guild_only_gate
    (env : Env) (store : Store) (caller : String) (ticketId : Nat)
    (content : String) (r : ApiRes) :
    (staffGateRes env caller = some r →
      apiClose env store caller ticketId = (r, store) ∧
      apiDelete env store caller ticketId = (r, store) ∧
      apiClaim env store caller ticketId = (r, store) ∧
      apiNote env store caller ticketId content = (r, store)) ∧
    (tOther.guild_id = some "other" ∧ envStaff.envGuildId = some "main" ∧
      envStaff.memberOf "other" "alice" = false ∧
      apiClose envStaff storeC10 "alice" 1 =
        (ApiRes.success, saveTicket storeC10 (closedVersion tOther 1000 "alice"))) ∧
    (envC10b.memberOf "main" "bob" = false ∧
      envC10b.adminPerm "other" "bob" = true ∧
      apiClose envC10b storeC10 "bob" 1 = (ApiRes.notMember, storeC10)) := by
  refine ⟨?_, ⟨rfl, rfl, rfl, rfl⟩, ⟨rfl, rfl, rfl⟩⟩
  intro h
  refine ⟨?_, ?_, ?_, ?_⟩ <;> simp [apiClose, apiDelete, apiClaim, apiNote, h]

/-- Witness for C10 at a concrete gate-failing input: `bob`, admin of the
ticket's own destination but not a member of the main guild, is rejected
identically by all four mutating endpoints, with the store unchanged. -/
theorem C10_main_guild_only_gate_witness :
    apiClose envC10b storeC10 "bob" 1 = (ApiRes.notMember, storeC10) ∧
    apiDelete envC10b storeC10 "bob" 1 = (ApiRes.notMember, storeC10) ∧
    apiClaim envC10b storeC10 "bob" 1 = (ApiRes.notMember, storeC10) ∧
    apiNote envC10b storeC10 "bob" 1 "note" = (ApiRes.notMember, storeC10) := by
  exact (C10_main_guild_only_gate envC10b storeC10 "bob" 1 "note" ApiRes.notMember).1 rfl

end Modmail
